import Mathlib

/-!
# MultiAgentSystem: the page script `backend/static/script.js`

A shallow embedding of the three event handlers of the page script (PDF upload, ask a
question, load logs) as functions on an explicit record of the DOM regions they write.

* The DOM regions are the fields of `UI`.
* What the network and the host do is an input of the handlers: the result of `fetch` and
  of reading the response body (`FetchResult`), and the host facts the script relies on
  without defining them (`Browser`): the message of a `TypeError` and the heights that
  bound the scroll position of the logs region.
* A handler returns the final `UI` together with the list of requests it issued.
* An `async` handler runs in two parts: the synchronous part up to the `fetch` call
  (`uploadSubmit`, `askSubmit`) and the part after the awaited calls settle (`uploadSettle`,
  `askSettle`). `uploadHandler`, `askHandler` and `logsHandler` run a handler from start to end.
-/

namespace MultiAgentSystem

/-! ## Values -/

/-- A selected file of the `pdfFile` input: its name and its content. -/
structure File where
  name : String
  bytes : List Nat
deriving DecidableEq, Repr

/-- A value read from a property of a parsed JSON body, as far as the handlers observe it:
its truthiness and its conversion to a string.
A number is carried by the text `Number::toString` gives it (a parsed JSON number is never
`NaN`, and both zeros print as `0`); a nested object or array is carried by the result of its
string conversion, which is a text or a `TypeError` with a message. -/
inductive JSValue where
  | undefined
  | null
  | boolean (b : Bool)
  | number (text : String)
  | string (s : String)
  | object (conv : Except String String)

/-- The value `response.json()` resolves to. The handlers only read the properties `error`,
`message`, `agentUsed`, `rationale` and `answer` of it: reading one of them from `null` throws,
from a boolean, number, string or array gives `undefined`, and from an object gives the
property (the first entry of `props` for the key) or `undefined`. -/
inductive Parsed where
  | null
  | scalar
  | object (props : List (String × JSValue))

/-- The part of the host the script relies on and does not define. -/
structure Browser where
  /-- The message of the `TypeError` thrown when the named property is read from `null`. -/
  nullPropertyMessage : String → String
  /-- The `scrollHeight` of the logs region for a given text content and `display` value. -/
  scrollHeight : String → String → Nat
  /-- The `clientHeight` of the logs region for a given text content and `display` value. -/
  clientHeight : String → String → Nat

/-- A response of `fetch`: the HTTP status and the result of reading the body
(`response.json()` or `response.text()`), a value or the message of the exception thrown. -/
structure Response (β : Type) where
  status : Nat
  body : Except String β

/-- The `ok` attribute of a response: the status is in the range 200 to 299. -/
def Response.ok {β : Type} (r : Response β) : Bool :=
  decide (200 ≤ r.status) && decide (r.status ≤ 299)

/-- The result of `await fetch(...)`: a response, or the message of the exception thrown. -/
abbrev FetchResult (β : Type) := Except String (Response β)

/-- The body of a request. -/
inductive RequestBody where
  | none
  /-- A `FormData` with its entries. -/
  | formData (entries : List (String × File))
  /-- The text `JSON.stringify` gives for an object with these string properties. -/
  | json (props : List (String × String))
deriving DecidableEq, Repr

/-- A call of `fetch`. -/
structure Request where
  url : String
  method : String
  headers : List (String × String)
  body : RequestBody
deriving DecidableEq, Repr

/-- The DOM regions the handlers write. -/
structure UI where
  /-- The `textContent` of `uploadStatus`. -/
  uploadStatusText : String
  /-- The `style.color` of `uploadStatus`. -/
  uploadStatusColor : String
  /-- The `style.display` of `loader`. -/
  loaderDisplay : String
  /-- The `style.display` of `result-content`. -/
  resultContentDisplay : String
  /-- The `textContent` of `rationaleBox`. -/
  rationaleBoxText : String
  /-- The `style.display` of `rationaleBox`. -/
  rationaleBoxDisplay : String
  /-- The `textContent` of `answerBox`. -/
  answerBoxText : String
  /-- The `textContent` of `logsBox`. -/
  logsBoxText : String
  /-- The `style.display` of `logsBox`. -/
  logsBoxDisplay : String
  /-- The `scrollTop` of `logsBox`: the scroll position of the logs region. -/
  logsBoxScrollTop : Nat
deriving DecidableEq, Repr

/-! ## JavaScript operations used by the script -/

/-- The truthiness of a value (`ToBoolean`). -/
def JSValue.truthy : JSValue → Bool
  | .undefined => false
  | .null => false
  | .boolean b => b
  | .number t => t != "0"
  | .string s => s != ""
  | .object _ => true

/-- The conversion of a value to a string (`ToString`), as in a template literal and in
`new Error(value)`. -/
def JSValue.toStr : JSValue → Except String String
  | .undefined => .ok "undefined"
  | .null => .ok "null"
  | .boolean true => .ok "true"
  | .boolean false => .ok "false"
  | .number t => .ok t
  | .string s => .ok s
  | .object conv => conv

/-- The conversion applied by the `textContent` setter: `null` and `undefined` give the empty
text, any other value its string conversion. -/
def JSValue.toTextContent : JSValue → Except String String
  | .undefined => .ok ""
  | .null => .ok ""
  | v => v.toStr

/-- The expression `a || b`. -/
def JSValue.or (a b : JSValue) : JSValue :=
  if a.truthy then a else b

/-- The expression `data.key`. -/
def Parsed.get (br : Browser) (data : Parsed) (key : String) : Except String JSValue :=
  match data with
  | .null => .error (br.nullPropertyMessage key)
  | .scalar => .ok .undefined
  | .object props => .ok ((props.lookup key).getD .undefined)

/-- The white space and line terminator characters that `String.prototype.trim` removes. -/
def isWhiteSpace (c : Char) : Bool :=
  c.toNat == 0x9 || c.toNat == 0xA || c.toNat == 0xB || c.toNat == 0xC || c.toNat == 0xD ||
  c.toNat == 0x20 || c.toNat == 0xA0 || c.toNat == 0x1680 ||
  (decide (0x2000 ≤ c.toNat) && decide (c.toNat ≤ 0x200A)) ||
  c.toNat == 0x2028 || c.toNat == 0x2029 || c.toNat == 0x202F || c.toNat == 0x205F ||
  c.toNat == 0x3000 || c.toNat == 0xFEFF

/-- The method `String.prototype.trim`. -/
def trim (s : String) : String :=
  String.mk ((s.data.dropWhile isWhiteSpace).reverse.dropWhile isWhiteSpace).reverse

/-! ## Style values -/

def errorColor : String := "var(--error-color)"
def mutedTextColor : String := "var(--muted-text-color)"
def successColor : String := "var(--success-color)"

/-! ## Handle PDF Upload (lines 20-46) -/

/-- The request of line 35. -/
def uploadRequest (file : File) : Request :=
  ⟨"/uploadPdf", "POST", [], .formData [("file", file)]⟩

/-- Lines 21-35, up to the call of `fetch`: the file check, the form data and the
`Uploading` status. Returns the request issued, if any. -/
def uploadSubmit (files : List File) (ui : UI) : UI × Option Request :=
  match files with
  | [] =>
    ({ ui with uploadStatusText := "Please select a file first."
               uploadStatusColor := errorColor }, none)
  | file :: _ =>
    ({ ui with uploadStatusText := "Uploading \"" ++ file.name ++ "\"..."
               uploadStatusColor := mutedTextColor }, some (uploadRequest file))

/-- Lines 35-41, the `try` block after the call of `fetch`: the state it leaves and the
message of the exception it throws, if any. -/
def uploadTry (br : Browser) (res : FetchResult Parsed) (ui : UI) : UI × Option String :=
  match res with
  | .error m => (ui, some m)
  | .ok response =>
    match response.body with
    | .error m => (ui, some m)
    | .ok data =>
      if !response.ok then
        match data.get br "error" with
        | .error m => (ui, some m)
        | .ok v =>
          match (v.or (.string "Unknown upload error")).toStr with
          | .error m => (ui, some m)
          | .ok message => (ui, some message)
      else
        match data.get br "message" with
        | .error m => (ui, some m)
        | .ok v =>
          match v.toTextContent with
          | .error m => (ui, some m)
          | .ok text =>
            ({ ui with uploadStatusText := text, uploadStatusColor := successColor }, none)

/-- Lines 42-45, the `catch` block. -/
def uploadCatch (message : String) (ui : UI) : UI :=
  { ui with uploadStatusText := "Upload failed: " ++ message
            uploadStatusColor := errorColor }

/-- Lines 34-45: the `try` and `catch` blocks, run once `fetch` and `json` have settled. -/
def uploadSettle (br : Browser) (res : FetchResult Parsed) (ui : UI) : UI :=
  match uploadTry br res ui with
  | (ui1, none) => ui1
  | (ui1, some message) => uploadCatch message ui1

/-- The submit handler of `uploadForm`, from start to end. -/
def uploadHandler (br : Browser) (files : List File) (res : FetchResult Parsed) (ui : UI) :
    UI × List Request :=
  match uploadSubmit files ui with
  | (ui1, none) => (ui1, [])
  | (ui1, some request) => (uploadSettle br res ui1, [request])

/-! ## Handle Ask Question (lines 49-80) -/

/-- The request of lines 59-63. -/
def askRequest (query : String) : Request :=
  ⟨"/ask", "POST", [("Content-Type", "application/json")], .json [("query", query)]⟩

/-- Lines 50-59, up to the call of `fetch`: the query check, then the loader is shown and
the previous result hidden. Returns the request issued, if any. -/
def askSubmit (value : String) (ui : UI) : UI × Option Request :=
  let query := trim value
  if query = "" then (ui, none)
  else
    ({ ui with loaderDisplay := "block", resultContentDisplay := "none" },
      some (askRequest query))

/-- The template literal of line 68. -/
def rationaleLine (br : Browser) (data : Parsed) : Except String String := do
  let agentUsed ← data.get br "agentUsed"
  let agentUsedStr ← agentUsed.toStr
  let rationale ← data.get br "rationale"
  let rationaleStr ← rationale.toStr
  pure ("Agent Used: " ++ agentUsedStr ++ " | Rationale: " ++ rationaleStr)

/-- Lines 59-70, the `try` block after the call of `fetch`: the state it leaves and the
message of the exception it throws, if any. -/
def askTry (br : Browser) (res : FetchResult Parsed) (ui : UI) : UI × Option String :=
  match res with
  | .error m => (ui, some m)
  | .ok response =>
    match response.body with
    | .error m => (ui, some m)
    | .ok data =>
      if !response.ok then
        match data.get br "error" with
        | .error m => (ui, some m)
        | .ok v =>
          match (v.or (.string "Failed to get an answer")).toStr with
          | .error m => (ui, some m)
          | .ok message => (ui, some message)
      else
        match rationaleLine br data with
        | .error m => (ui, some m)
        | .ok line =>
          let ui1 := { ui with rationaleBoxText := line, rationaleBoxDisplay := "block" }
          match data.get br "answer" with
          | .error m => (ui1, some m)
          | .ok v =>
            match v.toTextContent with
            | .error m => (ui1, some m)
            | .ok text => ({ ui1 with answerBoxText := text }, none)

/-- Lines 72-75, the `catch` block. -/
def askCatch (message : String) (ui : UI) : UI :=
  { ui with rationaleBoxDisplay := "none"
            answerBoxText := "An error occurred: " ++ message }

/-- Lines 75-79, the `finally` block. -/
def askFinally (ui : UI) : UI :=
  { ui with loaderDisplay := "none", resultContentDisplay := "block" }

/-- Lines 58-79: the `try`, `catch` and `finally` blocks, run once `fetch` and `json` have
settled. -/
def askSettle (br : Browser) (res : FetchResult Parsed) (ui : UI) : UI :=
  match askTry br res ui with
  | (ui1, none) => askFinally ui1
  | (ui1, some message) => askFinally (askCatch message ui1)

/-- The submit handler of `askForm`, from start to end; `value` is the text of `queryInput`. -/
def askHandler (br : Browser) (value : String) (res : FetchResult Parsed) (ui : UI) :
    UI × List Request :=
  match askSubmit value ui with
  | (ui1, none) => (ui1, [])
  | (ui1, some request) => (askSettle br res ui1, [request])

/-! ## Handle Load Logs (lines 83-94) -/

/-- The request of line 85. -/
def logsRequest : Request :=
  ⟨"/logs", "GET", [], .none⟩

/-- The largest scroll position the logs region can have with a given text content and
`display` value: the scroll height less the height of the visible part. -/
def Browser.maxScrollTop (br : Browser) (text display : String) : Nat :=
  br.scrollHeight text display - br.clientHeight text display

/-- The assignment `logsBox.textContent = text`. The host keeps the scroll position inside
the scrollable range of the new content. -/
def setLogsBoxText (br : Browser) (text : String) (ui : UI) : UI :=
  { ui with logsBoxText := text
            logsBoxScrollTop := min ui.logsBoxScrollTop (br.maxScrollTop text ui.logsBoxDisplay) }

/-- The assignment `logsBox.style.display = display`. The host keeps the scroll position
inside the scrollable range of the new layout. -/
def setLogsBoxDisplay (br : Browser) (display : String) (ui : UI) : UI :=
  { ui with logsBoxDisplay := display
            logsBoxScrollTop := min ui.logsBoxScrollTop (br.maxScrollTop ui.logsBoxText display) }

/-- The assignment `logsBox.scrollTop = y`. The setter scrolls to `y` clamped to the
scrollable range, whose upper end is `scrollHeight - clientHeight`. -/
def setLogsBoxScrollTop (br : Browser) (y : Nat) (ui : UI) : UI :=
  { ui with
    logsBoxScrollTop := min y (br.maxScrollTop ui.logsBoxText ui.logsBoxDisplay) }

/-- Lines 85-90, the `try` block after the call of `fetch`: the state it leaves and the
message of the exception it throws, if any. -/
def logsTry (br : Browser) (res : FetchResult String) (ui : UI) : UI × Option String :=
  match res with
  | .error m => (ui, some m)
  | .ok response =>
    match response.body with
    | .error m => (ui, some m)
    | .ok logData =>
      let ui1 := setLogsBoxText br logData ui
      let ui2 := setLogsBoxDisplay br "block" ui1
      (setLogsBoxScrollTop br (br.scrollHeight ui2.logsBoxText ui2.logsBoxDisplay) ui2, none)

/-- Lines 91-93, the `catch` block. -/
def logsCatch (br : Browser) (ui : UI) : UI :=
  setLogsBoxText br "Failed to load logs." ui

/-- The click handler of `loadLogs`, from start to end. -/
def logsHandler (br : Browser) (res : FetchResult String) (ui : UI) : UI × List Request :=
  match logsTry br res ui with
  | (ui1, none) => (ui1, [logsRequest])
  | (ui1, some _) => (logsCatch br ui1, [logsRequest])

/-! ## Sample inputs -/

/-- A page state before any interaction: empty texts, result regions hidden. -/
def sampleUI : UI :=
  ⟨"", "", "none", "none", "", "none", "", "", "none", 0⟩

/-- A host whose `TypeError` message names the property read and whose logs region shows
40 units of a content that is 40 units high plus 20 units for each character of its text. -/
def sampleBrowser : Browser :=
  ⟨fun key => "data is null, reading " ++ key, fun text _ => 40 + 20 * text.length,
    fun _ _ => 40⟩

/-- A selected file. -/
def samplePdf : File :=
  ⟨"report.pdf", [37, 80, 68, 70]⟩

/-- The call fails: `fetch` throws, reading the body throws, or the response does not have a
success status. -/
def failed {β : Type} (res : FetchResult β) : Bool :=
  match res with
  | .error _ => true
  | .ok response =>
    match response.body with
    | .error _ => true
    | .ok _ => !response.ok

/-! ## Basic facts -/

theorem Response.ok_eq_true_iff {β : Type} (r : Response β) :
    r.ok = true ↔ 200 ≤ r.status ∧ r.status ≤ 299 := by
  simp [Response.ok]

theorem Response.ok_eq_false_iff {β : Type} (r : Response β) :
    r.ok = false ↔ ¬ (200 ≤ r.status ∧ r.status ≤ 299) := by
  rw [← Response.ok_eq_true_iff]; simp

theorem dropWhile_eq_nil_of_all {α : Type} (p : α → Bool) (l : List α)
    (h : ∀ x ∈ l, p x = true) : l.dropWhile p = [] := by
  induction l with
  | nil => rfl
  | cons a t ih =>
    have ha : p a = true := h a (List.mem_cons_self a t)
    have ht : ∀ x ∈ t, p x = true := fun x hx => h x (List.mem_cons_of_mem a hx)
    simp [List.dropWhile, ha, ih ht]

theorem all_of_dropWhile_eq_nil {α : Type} (p : α → Bool) (l : List α)
    (h : l.dropWhile p = []) : ∀ x ∈ l, p x = true := by
  induction l with
  | nil => intro x hx; cases hx
  | cons a t ih =>
    by_cases ha : p a = true
    · simp only [List.dropWhile, ha] at h
      intro x hx
      rcases List.mem_cons.mp hx with rfl | hx
      · exact ha
      · exact ih h x hx
    · simp [List.dropWhile, ha] at h

/-- The trim of a text is empty exactly when the text is empty or has white space only. -/
theorem trim_eq_empty_iff (s : String) :
    trim s = "" ↔ ∀ c ∈ s.data, isWhiteSpace c = true := by
  constructor
  · intro h
    have h1 : ((s.data.dropWhile isWhiteSpace).reverse.dropWhile isWhiteSpace).reverse = [] := by
      have := congrArg String.data h
      simpa [trim] using this
    have h2 : (s.data.dropWhile isWhiteSpace).reverse.dropWhile isWhiteSpace = [] :=
      List.reverse_eq_nil_iff.mp h1
    by_cases h3 : s.data.dropWhile isWhiteSpace = []
    · exact all_of_dropWhile_eq_nil _ _ h3
    · exfalso
      obtain ⟨a, t, hat⟩ := List.exists_cons_of_ne_nil h3
      have hhead : isWhiteSpace a = false := by
        have := List.head_dropWhile_not isWhiteSpace s.data h3
        simpa [hat] using this
      have hall := all_of_dropWhile_eq_nil _ _ h2 a (by simp [hat])
      simp [hhead] at hall
  · intro h
    have h1 : s.data.dropWhile isWhiteSpace = [] := dropWhile_eq_nil_of_all _ _ h
    simp [trim, h1]

theorem askSubmit_of_trim_ne (value : String) (ui : UI) (hq : trim value ≠ "") :
    askSubmit value ui =
      ({ ui with loaderDisplay := "block", resultContentDisplay := "none" },
        some (askRequest (trim value))) := by
  simp [askSubmit, hq]

theorem askHandler_of_trim_ne (br : Browser) (value : String) (res : FetchResult Parsed)
    (ui : UI) (hq : trim value ≠ "") :
    askHandler br value res ui =
      (askSettle br res { ui with loaderDisplay := "block", resultContentDisplay := "none" },
        [askRequest (trim value)]) := by
  simp [askHandler, askSubmit_of_trim_ne value ui hq]

theorem askHandler_of_trim_eq (br : Browser) (value : String) (res : FetchResult Parsed)
    (ui : UI) (hq : trim value = "") : askHandler br value res ui = (ui, []) := by
  simp [askHandler, askSubmit, hq]

theorem askSettle_cleanup (br : Browser) (res : FetchResult Parsed) (ui : UI) :
    (askSettle br res ui).loaderDisplay = "none" ∧
    (askSettle br res ui).resultContentDisplay = "block" := by
  unfold askSettle
  split <;> simp [askFinally]

/-! ## Ask Question: cleanup, empty query, success -/

/-- C1. For an Ask submission whose trimmed query is not empty: when the request is issued
the loader is shown (`block`) and the result region hidden (`none`), one request to `/ask` is
issued, and for every outcome of the call (`res` ranges over a rejected `fetch`, a body that
fails to parse, and a parsed body of any status and shape, `null` included) the final state has
the loader hidden (`none`) and the result region shown (`block`). The cleanup also holds from
any state the page is in when the call settles. -/
theorem ask_cleanup_unconditional (br : Browser) (value : String) (res : FetchResult Parsed)
    (ui : UI) (hq : trim value ≠ "") :
    ((askSubmit value ui).2 = some (askRequest (trim value)) ∧
      (askSubmit value ui).1.loaderDisplay = "block" ∧
      (askSubmit value ui).1.resultContentDisplay = "none") ∧
    ((askHandler br value res ui).2 = [askRequest (trim value)] ∧
      (askHandler br value res ui).1.loaderDisplay = "none" ∧
      (askHandler br value res ui).1.resultContentDisplay = "block") ∧
    (∀ later : UI, (askSettle br res later).loaderDisplay = "none" ∧
      (askSettle br res later).resultContentDisplay = "block") := by
  refine ⟨?_, ?_, fun later => askSettle_cleanup br res later⟩
  · rw [askSubmit_of_trim_ne value ui hq]
    exact ⟨rfl, rfl, rfl⟩
  · rw [askHandler_of_trim_ne br value res ui hq]
    exact ⟨rfl, askSettle_cleanup br res _⟩

theorem ask_cleanup_unconditional_witness :
    trim "What is X?" ≠ "" ∧
    (askSubmit "What is X?" sampleUI).1.loaderDisplay = "block" ∧
    (askHandler sampleBrowser "What is X?" (.error "timeout") sampleUI).1.loaderDisplay
      = "none" :=
  have h := ask_cleanup_unconditional sampleBrowser "What is X?" (.error "timeout") sampleUI
    (by decide)
  ⟨by decide, h.1.2.1, h.2.1.2.1⟩

/-- C5. An Ask submission whose query text has an empty trim (the text is empty or has white
space only, see `trim_eq_empty_iff`) issues no request and returns the page state it was
given, so every region keeps its value, whatever the network would have answered. -/
theorem ask_empty_query_noop (br : Browser) (value : String) (res : FetchResult Parsed)
    (ui : UI) (hq : trim value = "") :
    askSubmit value ui = (ui, none) ∧ askHandler br value res ui = (ui, []) := by
  have h : askSubmit value ui = (ui, none) := by simp [askSubmit, hq]
  exact ⟨h, by simp [askHandler, h]⟩

theorem ask_empty_query_noop_witness :
    trim " \t\n " = "" ∧
    askHandler sampleBrowser " \t\n " (.error "timeout") sampleUI = (sampleUI, []) :=
  ⟨by decide,
    (ask_empty_query_noop sampleBrowser " \t\n " (.error "timeout") sampleUI (by decide)).2⟩

/-- C6. For an Ask submission with a non-empty trimmed query that receives a response with a
success status whose parsed body has the string properties `answer` a, `rationale` r and
`agentUsed` g, the final rationale text is `Agent Used: g | Rationale: r`, the rationale
region is shown, and the answer text is a. -/
theorem ask_success_rendering (br : Browser) (value : String) (status : Nat)
    (props : List (String × JSValue)) (a r g : String) (ui : UI)
    (hq : trim value ≠ "") (hs : 200 ≤ status ∧ status ≤ 299)
    (ha : props.lookup "answer" = some (.string a))
    (hr : props.lookup "rationale" = some (.string r))
    (hg : props.lookup "agentUsed" = some (.string g)) :
    (askHandler br value (.ok ⟨status, .ok (.object props)⟩) ui).1.rationaleBoxText
      = "Agent Used: " ++ g ++ " | Rationale: " ++ r ∧
    (askHandler br value (.ok ⟨status, .ok (.object props)⟩) ui).1.rationaleBoxDisplay = "block" ∧
    (askHandler br value (.ok ⟨status, .ok (.object props)⟩) ui).1.answerBoxText = a := by
  have hok : (⟨status, .ok (.object props)⟩ : Response Parsed).ok = true :=
    (Response.ok_eq_true_iff _).mpr hs
  have hline : rationaleLine br (.object props)
      = .ok ("Agent Used: " ++ g ++ " | Rationale: " ++ r) := by
    simp [rationaleLine, Parsed.get, hr, hg, JSValue.toStr, bind, Except.bind, pure, Except.pure]
  rw [askHandler_of_trim_ne br value _ ui hq]
  simp [askSettle, askTry, hok, hline, Parsed.get, ha, JSValue.toTextContent, JSValue.toStr,
    askFinally]

theorem ask_success_rendering_witness :
    (askHandler sampleBrowser "What is X?"
      (.ok ⟨200, .ok (.object [("answer", .string "42"), ("rationale", .string "r"),
        ("agentUsed", .string "A1")])⟩) sampleUI).1.rationaleBoxText
      = "Agent Used: A1 | Rationale: r" ∧
    (askHandler sampleBrowser "What is X?"
      (.ok ⟨200, .ok (.object [("answer", .string "42"), ("rationale", .string "r"),
        ("agentUsed", .string "A1")])⟩) sampleUI).1.rationaleBoxDisplay = "block" ∧
    (askHandler sampleBrowser "What is X?"
      (.ok ⟨200, .ok (.object [("answer", .string "42"), ("rationale", .string "r"),
        ("agentUsed", .string "A1")])⟩) sampleUI).1.answerBoxText = "42" :=
  ask_success_rendering sampleBrowser "What is X?" 200
    [("answer", .string "42"), ("rationale", .string "r"), ("agentUsed", .string "A1")]
    "42" "r" "A1" sampleUI (by decide) (by decide) rfl rfl rfl

/-! ## Upload: validation -/

/-- C4. An Upload submission with an empty file list issues no request and ends with the
status text `Please select a file first.` in the error style; every other region keeps its
value, and the result does not depend on what the network would have answered. -/
theorem upload_no_file_selected (br : Browser) (res : FetchResult Parsed) (ui : UI) :
    uploadSubmit [] ui =
      ({ ui with uploadStatusText := "Please select a file first."
                 uploadStatusColor := "var(--error-color)" }, none) ∧
    uploadHandler br [] res ui =
      ({ ui with uploadStatusText := "Please select a file first."
                 uploadStatusColor := "var(--error-color)" }, []) :=
  ⟨rfl, rfl⟩

/-! ## Load Logs -/

/-- C8. A Load Logs click whose `fetch` throws, or whose reading of the response body throws
(whatever the status), ends with the logs text `Failed to load logs.`, for every previous
state of the page and every exception message. -/
theorem logs_failure_rendering (br : Browser) (ui : UI) (message : String) (status : Nat) :
    (logsHandler br (.error message) ui).1.logsBoxText = "Failed to load logs." ∧
    (logsHandler br (.ok ⟨status, .error message⟩) ui).1.logsBoxText = "Failed to load logs." :=
  ⟨rfl, rfl⟩

/-- C9 (as stated, refuted). With a logs region that shows 40 units of its content, the body
`line1\nline2` is rendered as the text and the region is shown, and the scroll position ends
at 220 while the scroll height is 260: the position is at the bottom and is not equal to the
scroll height. -/
theorem logs_scroll_position_counterexample :
    (logsHandler sampleBrowser (.ok ⟨200, .ok "line1\nline2"⟩) sampleUI).1.logsBoxScrollTop
      = 220 ∧
    sampleBrowser.scrollHeight
      (logsHandler sampleBrowser (.ok ⟨200, .ok "line1\nline2"⟩) sampleUI).1.logsBoxText
      (logsHandler sampleBrowser (.ok ⟨200, .ok "line1\nline2"⟩) sampleUI).1.logsBoxDisplay
      = 260 ∧
    (logsHandler sampleBrowser (.ok ⟨200, .ok "line1\nline2"⟩) sampleUI).1.logsBoxScrollTop ≠
      sampleBrowser.scrollHeight
        (logsHandler sampleBrowser (.ok ⟨200, .ok "line1\nline2"⟩) sampleUI).1.logsBoxText
        (logsHandler sampleBrowser (.ok ⟨200, .ok "line1\nline2"⟩) sampleUI).1.logsBoxDisplay := by
  decide

/-- C9 (amended). A Load Logs click whose response body is read as the text t, whatever the
HTTP status, issues one `GET /logs` and ends with the logs text equal to t (the previous text
is replaced), the logs region shown (`block`), and the region scrolled to the bottom: its
scroll position is the largest one it can have with that text and that display value, its
scroll height less its client height. -/
theorem logs_body_rendered_as_is (br : Browser) (ui : UI) (status : Nat) (t : String) :
    (logsHandler br (.ok ⟨status, .ok t⟩) ui).2 = [logsRequest] ∧
    (logsHandler br (.ok ⟨status, .ok t⟩) ui).1.logsBoxText = t ∧
    (logsHandler br (.ok ⟨status, .ok t⟩) ui).1.logsBoxDisplay = "block" ∧
    (logsHandler br (.ok ⟨status, .ok t⟩) ui).1.logsBoxScrollTop =
      br.scrollHeight (logsHandler br (.ok ⟨status, .ok t⟩) ui).1.logsBoxText
          (logsHandler br (.ok ⟨status, .ok t⟩) ui).1.logsBoxDisplay
        - br.clientHeight (logsHandler br (.ok ⟨status, .ok t⟩) ui).1.logsBoxText
          (logsHandler br (.ok ⟨status, .ok t⟩) ui).1.logsBoxDisplay := by
  refine ⟨rfl, rfl, rfl, ?_⟩
  show min (br.scrollHeight t "block") (br.maxScrollTop t "block")
    = br.scrollHeight t "block" - br.clientHeight t "block"
  exact Nat.min_eq_right (Nat.sub_le _ _)

/-! ## Upload: success and failure -/

theorem uploadHandler_of_file (br : Browser) (file : File) (files : List File)
    (res : FetchResult Parsed) (ui : UI) :
    uploadHandler br (file :: files) res ui =
      (uploadSettle br res
        { ui with uploadStatusText := "Uploading \"" ++ file.name ++ "\"..."
                  uploadStatusColor := mutedTextColor }, [uploadRequest file]) :=
  rfl

/-- What the `catch` block of the Upload handler shows for a thrown message. -/
theorem uploadSettle_of_throw (br : Browser) (res : FetchResult Parsed) (ui : UI)
    (message : String) (h : (uploadTry br res ui).2 = some message) :
    (uploadSettle br res ui).uploadStatusText = "Upload failed: " ++ message ∧
    (uploadSettle br res ui).uploadStatusColor = "var(--error-color)" := by
  unfold uploadSettle
  split
  · rename_i h1; rw [h1] at h; cases h
  · rename_i h1; rw [h1] at h; cases h; exact ⟨rfl, rfl⟩

/-- What the `catch` and `finally` blocks of the Ask handler show for a thrown message. -/
theorem askSettle_of_throw (br : Browser) (res : FetchResult Parsed) (ui : UI)
    (message : String) (h : (askTry br res ui).2 = some message) :
    (askSettle br res ui).rationaleBoxDisplay = "none" ∧
    (askSettle br res ui).answerBoxText = "An error occurred: " ++ message := by
  unfold askSettle
  split
  · rename_i h1; rw [h1] at h; cases h
  · rename_i h1; rw [h1] at h; cases h; exact ⟨rfl, rfl⟩

/-- On a failed call both `try` blocks throw, and they throw the same message unless each
falls back to its own default text. -/
theorem failure_reasons_related (br : Browser) (res : FetchResult Parsed) (ui1 ui2 : UI)
    (h : failed res = true) :
    (∃ reason : String,
      (uploadTry br res ui1).2 = some reason ∧ (askTry br res ui2).2 = some reason) ∨
    ((uploadTry br res ui1).2 = some "Unknown upload error" ∧
      (askTry br res ui2).2 = some "Failed to get an answer") := by
  cases res with
  | error m => exact Or.inl ⟨m, rfl, rfl⟩
  | ok response =>
    obtain ⟨status, body⟩ := response
    cases body with
    | error m => exact Or.inl ⟨m, rfl, rfl⟩
    | ok data =>
      have hok : (⟨status, .ok data⟩ : Response Parsed).ok = false := by
        simpa [failed] using h
      cases hget : data.get br "error" with
      | error m =>
        left
        exact ⟨m, by simp [uploadTry, hok, hget], by simp [askTry, hok, hget]⟩
      | ok v =>
        by_cases hv : v.truthy = true
        · cases hstr : v.toStr with
          | error m =>
            left
            exact ⟨m, by simp [uploadTry, hok, hget, JSValue.or, hv, hstr],
              by simp [askTry, hok, hget, JSValue.or, hv, hstr]⟩
          | ok t =>
            left
            exact ⟨t, by simp [uploadTry, hok, hget, JSValue.or, hv, hstr],
              by simp [askTry, hok, hget, JSValue.or, hv, hstr]⟩
        · right
          exact ⟨by simp [uploadTry, hok, hget, JSValue.or, hv, JSValue.toStr],
            by simp [askTry, hok, hget, JSValue.or, hv, JSValue.toStr]⟩

/-- On a failed call the `try` block of the Ask handler throws. -/
theorem askTry_throws_of_failed (br : Browser) (res : FetchResult Parsed) (ui : UI)
    (h : failed res = true) : ∃ message : String, (askTry br res ui).2 = some message := by
  rcases failure_reasons_related br res ui ui h with ⟨r, _, hr⟩ | ⟨_, hr⟩
  · exact ⟨r, hr⟩
  · exact ⟨_, hr⟩

/-- On a failed call the `try` block of the Upload handler throws. -/
theorem uploadTry_throws_of_failed (br : Browser) (res : FetchResult Parsed) (ui : UI)
    (h : failed res = true) : ∃ message : String, (uploadTry br res ui).2 = some message := by
  rcases failure_reasons_related br res ui ui h with ⟨r, hr, _⟩ | ⟨hr, _⟩
  · exact ⟨r, hr⟩
  · exact ⟨_, hr⟩

/-- C7 (as stated, refuted). A response with status 200 whose body does not parse as JSON
ends in `Upload failed: ...` in the error style, not in the success style. -/
theorem upload_success_status_counterexample :
    (uploadHandler sampleBrowser [samplePdf]
      (.ok ⟨200, .error "Unexpected token < in JSON at position 0"⟩) sampleUI).1.uploadStatusText
      = "Upload failed: Unexpected token < in JSON at position 0" ∧
    (uploadHandler sampleBrowser [samplePdf]
      (.ok ⟨200, .error "Unexpected token < in JSON at position 0"⟩) sampleUI).1.uploadStatusColor
      = "var(--error-color)" ∧
    (uploadHandler sampleBrowser [samplePdf]
      (.ok ⟨200, .error "Unexpected token < in JSON at position 0"⟩) sampleUI).1.uploadStatusColor
      ≠ "var(--success-color)" := by
  decide

/-- C7 (amended). For an Upload submission with a file selected that receives a response with
a status in the success range whose body parses as a JSON object with a string `message` m,
the final status text is m (the `Uploading` text is replaced) in the success style. -/
theorem upload_success_rendering (br : Browser) (file : File) (files : List File)
    (status : Nat) (props : List (String × JSValue)) (m : String) (ui : UI)
    (hs : 200 ≤ status ∧ status ≤ 299)
    (hm : props.lookup "message" = some (.string m)) :
    (uploadHandler br (file :: files) (.ok ⟨status, .ok (.object props)⟩) ui).1.uploadStatusText
      = m ∧
    (uploadHandler br (file :: files) (.ok ⟨status, .ok (.object props)⟩) ui).1.uploadStatusColor
      = "var(--success-color)" := by
  have hok : (⟨status, .ok (.object props)⟩ : Response Parsed).ok = true :=
    (Response.ok_eq_true_iff _).mpr hs
  rw [uploadHandler_of_file]
  simp [uploadSettle, uploadTry, hok, Parsed.get, hm, JSValue.toTextContent, JSValue.toStr,
    successColor]

theorem upload_success_rendering_witness :
    (uploadHandler sampleBrowser [samplePdf]
      (.ok ⟨200, .ok (.object [("message", .string "OK")])⟩) sampleUI).1.uploadStatusText
      = "OK" ∧
    (uploadHandler sampleBrowser [samplePdf]
      (.ok ⟨200, .ok (.object [("message", .string "OK")])⟩) sampleUI).1.uploadStatusColor
      = "var(--success-color)" :=
  upload_success_rendering sampleBrowser samplePdf [] 200 [("message", .string "OK")] "OK"
    sampleUI (by decide) rfl

/-- C2 (as stated, refuted). With status 422 and body `error: ""` the server reports an error
string, and the status shows `Unknown upload error` and not that string; with status 500 and
body `null` the body has no error string, and the status shows the message of the exception
thrown by reading `error`, not `Unknown upload error`. -/
theorem upload_failure_reason_counterexample :
    ((uploadHandler sampleBrowser [samplePdf]
        (.ok ⟨422, .ok (.object [("error", .string "")])⟩) sampleUI).1.uploadStatusText
        = "Upload failed: Unknown upload error" ∧
      (uploadHandler sampleBrowser [samplePdf]
        (.ok ⟨422, .ok (.object [("error", .string "")])⟩) sampleUI).1.uploadStatusText
        ≠ "Upload failed: " ++ "") ∧
    ((uploadHandler sampleBrowser [samplePdf]
        (.ok ⟨500, .ok .null⟩) sampleUI).1.uploadStatusText
        = "Upload failed: data is null, reading error" ∧
      (uploadHandler sampleBrowser [samplePdf]
        (.ok ⟨500, .ok .null⟩) sampleUI).1.uploadStatusText
        ≠ "Upload failed: Unknown upload error") := by
  decide

/-- C2 (amended). For an Upload submission with a file selected whose call fails, the final
status is `Upload failed: ` followed by a reason, in the error style, where the reason is
* the message of the exception, when `fetch` throws or parsing the body throws;
* the `error` string of the body, when the status is not a success status and that string is
  not empty;
* `Unknown upload error`, when the status is not a success status, the body is not `null`
  and its `error` is absent, `null`, `false`, zero or the empty string;
* the message of the exception thrown by reading `error`, when the status is not a success
  status and the body is `null`;
* the string conversion of `error`, when the status is not a success status and `error` is
  any other truthy value (`true`, a number other than zero, an object or an array), or the
  message of the exception when that conversion throws.
Every failed call falls under one of these cases and ends in `Upload failed: ` followed by
a reason, in the error style. -/
theorem upload_failure_rendering (br : Browser) (file : File) (files : List File) (ui : UI) :
    (∀ message : String,
      (uploadHandler br (file :: files) (.error message) ui).1.uploadStatusText
        = "Upload failed: " ++ message ∧
      (uploadHandler br (file :: files) (.error message) ui).1.uploadStatusColor
        = "var(--error-color)") ∧
    (∀ (status : Nat) (message : String),
      (uploadHandler br (file :: files) (.ok ⟨status, .error message⟩) ui).1.uploadStatusText
        = "Upload failed: " ++ message ∧
      (uploadHandler br (file :: files) (.ok ⟨status, .error message⟩) ui).1.uploadStatusColor
        = "var(--error-color)") ∧
    (∀ (status : Nat) (props : List (String × JSValue)) (s : String),
      ¬ (200 ≤ status ∧ status ≤ 299) → props.lookup "error" = some (.string s) → s ≠ "" →
      (uploadHandler br (file :: files)
        (.ok ⟨status, .ok (.object props)⟩) ui).1.uploadStatusText = "Upload failed: " ++ s ∧
      (uploadHandler br (file :: files)
        (.ok ⟨status, .ok (.object props)⟩) ui).1.uploadStatusColor = "var(--error-color)") ∧
    (∀ (status : Nat) (data : Parsed) (v : JSValue),
      ¬ (200 ≤ status ∧ status ≤ 299) → data.get br "error" = .ok v →
      (v = .undefined ∨ v = .null ∨ v = .boolean false ∨ v = .number "0" ∨ v = .string "") →
      (uploadHandler br (file :: files) (.ok ⟨status, .ok data⟩) ui).1.uploadStatusText
        = "Upload failed: Unknown upload error" ∧
      (uploadHandler br (file :: files) (.ok ⟨status, .ok data⟩) ui).1.uploadStatusColor
        = "var(--error-color)") ∧
    (∀ status : Nat, ¬ (200 ≤ status ∧ status ≤ 299) →
      (uploadHandler br (file :: files) (.ok ⟨status, .ok .null⟩) ui).1.uploadStatusText
        = "Upload failed: " ++ br.nullPropertyMessage "error" ∧
      (uploadHandler br (file :: files) (.ok ⟨status, .ok .null⟩) ui).1.uploadStatusColor
        = "var(--error-color)") ∧
    (∀ (status : Nat) (data : Parsed) (v : JSValue) (s : String),
      ¬ (200 ≤ status ∧ status ≤ 299) → data.get br "error" = .ok v →
      v.truthy = true → (v.toStr = .ok s ∨ v.toStr = .error s) →
      (uploadHandler br (file :: files) (.ok ⟨status, .ok data⟩) ui).1.uploadStatusText
        = "Upload failed: " ++ s ∧
      (uploadHandler br (file :: files) (.ok ⟨status, .ok data⟩) ui).1.uploadStatusColor
        = "var(--error-color)") ∧
    (∀ res : FetchResult Parsed, failed res = true →
      ∃ reason : String,
        (uploadHandler br (file :: files) res ui).1.uploadStatusText
          = "Upload failed: " ++ reason ∧
        (uploadHandler br (file :: files) res ui).1.uploadStatusColor
          = "var(--error-color)") := by
  refine ⟨?_, ?_, ?_, ?_, ?_, ?_, ?_⟩
  · intro message
    rw [uploadHandler_of_file]
    exact uploadSettle_of_throw br _ _ message rfl
  · intro status message
    rw [uploadHandler_of_file]
    exact uploadSettle_of_throw br _ _ message rfl
  · intro status props s hs he hne
    have hok : (⟨status, .ok (.object props)⟩ : Response Parsed).ok = false :=
      (Response.ok_eq_false_iff _).mpr hs
    rw [uploadHandler_of_file]
    apply uploadSettle_of_throw
    simp [uploadTry, hok, Parsed.get, he, JSValue.or, JSValue.truthy, hne, JSValue.toStr]
  · intro status data v hs hv hfalsy
    have hok : (⟨status, .ok data⟩ : Response Parsed).ok = false :=
      (Response.ok_eq_false_iff _).mpr hs
    rw [uploadHandler_of_file]
    apply uploadSettle_of_throw
    rcases hfalsy with h | h | h | h | h <;> subst h <;>
      simp [uploadTry, hok, hv, JSValue.or, JSValue.truthy, JSValue.toStr]
  · intro status hs
    have hok : (⟨status, .ok .null⟩ : Response Parsed).ok = false :=
      (Response.ok_eq_false_iff _).mpr hs
    rw [uploadHandler_of_file]
    apply uploadSettle_of_throw
    simp [uploadTry, hok, Parsed.get]
  · intro status data v s hs hv htruthy hstr
    have hok : (⟨status, .ok data⟩ : Response Parsed).ok = false :=
      (Response.ok_eq_false_iff _).mpr hs
    rw [uploadHandler_of_file]
    apply uploadSettle_of_throw
    rcases hstr with hstr | hstr <;>
      simp [uploadTry, hok, hv, JSValue.or, htruthy, hstr]
  · intro res hf
    rw [uploadHandler_of_file]
    obtain ⟨m, hm⟩ := uploadTry_throws_of_failed br res _ hf
    exact ⟨m, uploadSettle_of_throw br res _ m hm⟩

theorem upload_failure_rendering_witness :
    ((uploadHandler sampleBrowser [samplePdf]
        (.ok ⟨422, .ok (.object [("error", .string "bad pdf")])⟩) sampleUI).1.uploadStatusText
        = "Upload failed: " ++ "bad pdf" ∧
      (uploadHandler sampleBrowser [samplePdf]
        (.ok ⟨422, .ok (.object [("error", .string "bad pdf")])⟩) sampleUI).1.uploadStatusColor
        = "var(--error-color)") ∧
    ((uploadHandler sampleBrowser [samplePdf]
        (.ok ⟨500, .ok (.object [("error", .boolean true)])⟩) sampleUI).1.uploadStatusText
        = "Upload failed: " ++ "true" ∧
      (uploadHandler sampleBrowser [samplePdf]
        (.ok ⟨500, .ok (.object [("error", .boolean true)])⟩) sampleUI).1.uploadStatusColor
        = "var(--error-color)") :=
  have h := upload_failure_rendering sampleBrowser samplePdf [] sampleUI
  ⟨h.2.2.1 422 [("error", .string "bad pdf")] "bad pdf" (by decide) rfl (by decide),
    h.2.2.2.2.2.1 500 (.object [("error", .boolean true)]) (.boolean true) "true"
      (by decide) rfl rfl (Or.inl rfl)⟩

/-! ## Ask Question: failure -/

/-- C3 (as stated, refuted). For a response with status 500 whose body is an object without
`error`, the Ask flow shows `Failed to get an answer`, not `Unknown upload error`, while the
Upload flow shows `Unknown upload error` for the same response. -/
theorem ask_failure_reason_counterexample :
    (askHandler sampleBrowser "What is X?"
      (.ok ⟨500, .ok (.object [])⟩) sampleUI).1.answerBoxText
      = "An error occurred: Failed to get an answer" ∧
    (askHandler sampleBrowser "What is X?"
      (.ok ⟨500, .ok (.object [])⟩) sampleUI).1.answerBoxText
      ≠ "An error occurred: Unknown upload error" ∧
    (uploadHandler sampleBrowser [samplePdf]
      (.ok ⟨500, .ok (.object [])⟩) sampleUI).1.uploadStatusText
      = "Upload failed: Unknown upload error" := by
  decide

/-- C3 (amended). For an Ask submission with a non-empty trimmed query whose call fails
(`fetch` throws, parsing the body throws, or the status is not a success status), the
rationale region is hidden and the answer text is `An error occurred: ` followed by a reason,
resolved in the same order as in the Upload flow with a default text of its own:
* the message of the exception, when `fetch` throws or parsing the body throws;
* the `error` string of the body, when the status is not a success status and that string is
  not empty;
* `Failed to get an answer`, when the status is not a success status, the body is not `null`
  and its `error` is absent, `null`, `false`, zero or the empty string;
* the message of the exception thrown by reading `error`, when the status is not a success
  status and the body is `null`.
For the same failed call the two flows show the same reason, except where the Upload flow
shows `Unknown upload error` and the Ask flow `Failed to get an answer`. -/
theorem ask_failure_rendering (br : Browser) (value : String) (ui : UI)
    (hq : trim value ≠ "") :
    (∀ res : FetchResult Parsed, failed res = true →
      (askHandler br value res ui).1.rationaleBoxDisplay = "none") ∧
    (∀ message : String,
      (askHandler br value (.error message) ui).1.answerBoxText
        = "An error occurred: " ++ message) ∧
    (∀ (status : Nat) (message : String),
      (askHandler br value (.ok ⟨status, .error message⟩) ui).1.answerBoxText
        = "An error occurred: " ++ message) ∧
    (∀ (status : Nat) (props : List (String × JSValue)) (s : String),
      ¬ (200 ≤ status ∧ status ≤ 299) → props.lookup "error" = some (.string s) → s ≠ "" →
      (askHandler br value (.ok ⟨status, .ok (.object props)⟩) ui).1.answerBoxText
        = "An error occurred: " ++ s) ∧
    (∀ (status : Nat) (data : Parsed) (v : JSValue),
      ¬ (200 ≤ status ∧ status ≤ 299) → data.get br "error" = .ok v →
      (v = .undefined ∨ v = .null ∨ v = .boolean false ∨ v = .number "0" ∨ v = .string "") →
      (askHandler br value (.ok ⟨status, .ok data⟩) ui).1.answerBoxText
        = "An error occurred: Failed to get an answer") ∧
    (∀ status : Nat, ¬ (200 ≤ status ∧ status ≤ 299) →
      (askHandler br value (.ok ⟨status, .ok .null⟩) ui).1.answerBoxText
        = "An error occurred: " ++ br.nullPropertyMessage "error") ∧
    (∀ (res : FetchResult Parsed) (file : File) (files : List File) (ui2 : UI),
      failed res = true →
      (∃ reason : String,
        (uploadHandler br (file :: files) res ui2).1.uploadStatusText
          = "Upload failed: " ++ reason ∧
        (askHandler br value res ui).1.answerBoxText = "An error occurred: " ++ reason) ∨
      ((uploadHandler br (file :: files) res ui2).1.uploadStatusText
          = "Upload failed: Unknown upload error" ∧
        (askHandler br value res ui).1.answerBoxText
          = "An error occurred: Failed to get an answer")) := by
  refine ⟨?_, ?_, ?_, ?_, ?_, ?_, ?_⟩
  · intro res hf
    rw [askHandler_of_trim_ne br value res ui hq]
    obtain ⟨m, hm⟩ := askTry_throws_of_failed br res _ hf
    exact (askSettle_of_throw br res _ m hm).1
  · intro message
    rw [askHandler_of_trim_ne br value _ ui hq]
    exact (askSettle_of_throw br (.error message) _ message rfl).2
  · intro status message
    rw [askHandler_of_trim_ne br value _ ui hq]
    exact (askSettle_of_throw br (.ok ⟨status, .error message⟩) _ message rfl).2
  · intro status props s hs he hne
    have hok : (⟨status, .ok (.object props)⟩ : Response Parsed).ok = false :=
      (Response.ok_eq_false_iff _).mpr hs
    rw [askHandler_of_trim_ne br value _ ui hq]
    refine (askSettle_of_throw br _ _ s ?_).2
    simp [askTry, hok, Parsed.get, he, JSValue.or, JSValue.truthy, hne, JSValue.toStr]
  · intro status data v hs hv hfalsy
    have hok : (⟨status, .ok data⟩ : Response Parsed).ok = false :=
      (Response.ok_eq_false_iff _).mpr hs
    rw [askHandler_of_trim_ne br value _ ui hq]
    refine (askSettle_of_throw br _ _ "Failed to get an answer" ?_).2
    rcases hfalsy with h | h | h | h | h <;> subst h <;>
      simp [askTry, hok, hv, JSValue.or, JSValue.truthy, JSValue.toStr]
  · intro status hs
    have hok : (⟨status, .ok .null⟩ : Response Parsed).ok = false :=
      (Response.ok_eq_false_iff _).mpr hs
    rw [askHandler_of_trim_ne br value _ ui hq]
    refine (askSettle_of_throw br _ _ (br.nullPropertyMessage "error") ?_).2
    simp [askTry, hok, Parsed.get]
  · intro res file files ui2 hf
    rw [askHandler_of_trim_ne br value res ui hq, uploadHandler_of_file]
    rcases failure_reasons_related br res
        { ui2 with uploadStatusText := "Uploading \"" ++ file.name ++ "\"..."
                   uploadStatusColor := mutedTextColor }
        { ui with loaderDisplay := "block", resultContentDisplay := "none" } hf
      with ⟨r, hu, ha⟩ | ⟨hu, ha⟩
    · exact Or.inl ⟨r, (uploadSettle_of_throw br res _ r hu).1,
        (askSettle_of_throw br res _ r ha).2⟩
    · exact Or.inr ⟨(uploadSettle_of_throw br res _ _ hu).1,
        (askSettle_of_throw br res _ _ ha).2⟩

theorem ask_failure_rendering_witness :
    trim "What is X?" ≠ "" ∧
    (askHandler sampleBrowser "What is X?" (.error "timeout") sampleUI).1.rationaleBoxDisplay
      = "none" ∧
    (askHandler sampleBrowser "What is X?" (.error "timeout") sampleUI).1.answerBoxText
      = "An error occurred: " ++ "timeout" :=
  have h := ask_failure_rendering sampleBrowser "What is X?" sampleUI (by decide)
  ⟨by decide, h.1 (.error "timeout") rfl, h.2.1 "timeout"⟩

/-! ## Region ownership -/

/-- The `try` block of the Upload handler either throws without a write or writes the status
text and colour, and which of the two, with which values, does not depend on the page. -/
theorem uploadTry_shape (br : Browser) (res : FetchResult Parsed) :
    (∃ m : String, ∀ ui : UI, uploadTry br res ui = (ui, some m)) ∨
    (∃ text : String, ∀ ui : UI, uploadTry br res ui =
      ({ ui with uploadStatusText := text, uploadStatusColor := successColor }, none)) := by
  cases res with
  | error m => exact Or.inl ⟨m, fun _ => rfl⟩
  | ok response =>
    obtain ⟨status, body⟩ := response
    cases body with
    | error m => exact Or.inl ⟨m, fun _ => rfl⟩
    | ok data =>
      cases hok : (⟨status, .ok data⟩ : Response Parsed).ok with
      | false =>
        cases hget : data.get br "error" with
        | error m => exact Or.inl ⟨m, fun _ => by simp [uploadTry, hok, hget]⟩
        | ok v =>
          cases hstr : (v.or (.string "Unknown upload error")).toStr with
          | error m => exact Or.inl ⟨m, fun _ => by simp [uploadTry, hok, hget, hstr]⟩
          | ok t => exact Or.inl ⟨t, fun _ => by simp [uploadTry, hok, hget, hstr]⟩
      | true =>
        cases hget : data.get br "message" with
        | error m => exact Or.inl ⟨m, fun _ => by simp [uploadTry, hok, hget]⟩
        | ok v =>
          cases hstr : v.toTextContent with
          | error m => exact Or.inl ⟨m, fun _ => by simp [uploadTry, hok, hget, hstr]⟩
          | ok t => exact Or.inr ⟨t, fun _ => by simp [uploadTry, hok, hget, hstr]⟩

/-- The Upload handler sets the status text and colour to values that do not depend on the
page, and nothing else. -/
theorem uploadHandler_shape (br : Browser) (files : List File) (res : FetchResult Parsed) :
    ∃ text color : String, ∀ ui : UI, (uploadHandler br files res ui).1 =
      { ui with uploadStatusText := text, uploadStatusColor := color } := by
  cases files with
  | nil => exact ⟨_, _, fun _ => rfl⟩
  | cons file files =>
    rcases uploadTry_shape br res with ⟨m, h⟩ | ⟨t, h⟩
    · exact ⟨"Upload failed: " ++ m, errorColor, fun ui => by
        simp [uploadHandler_of_file, uploadSettle, h, uploadCatch]⟩
    · exact ⟨t, successColor, fun ui => by
        simp [uploadHandler_of_file, uploadSettle, h]⟩

/-- The `try` block of the Ask handler throws without a write, or writes the rationale and
throws, or writes the rationale and the answer; which of the three, with which values, does
not depend on the page. -/
theorem askTry_shape (br : Browser) (res : FetchResult Parsed) :
    (∃ m : String, ∀ ui : UI, askTry br res ui = (ui, some m)) ∨
    (∃ line m : String, ∀ ui : UI, askTry br res ui =
      ({ ui with rationaleBoxText := line, rationaleBoxDisplay := "block" }, some m)) ∨
    (∃ line text : String, ∀ ui : UI, askTry br res ui =
      ({ ui with rationaleBoxText := line, rationaleBoxDisplay := "block", answerBoxText := text },
        none)) := by
  cases res with
  | error m => exact Or.inl ⟨m, fun _ => rfl⟩
  | ok response =>
    obtain ⟨status, body⟩ := response
    cases body with
    | error m => exact Or.inl ⟨m, fun _ => rfl⟩
    | ok data =>
      cases hok : (⟨status, .ok data⟩ : Response Parsed).ok with
      | false =>
        cases hget : data.get br "error" with
        | error m => exact Or.inl ⟨m, fun _ => by simp [askTry, hok, hget]⟩
        | ok v =>
          cases hstr : (v.or (.string "Failed to get an answer")).toStr with
          | error m => exact Or.inl ⟨m, fun _ => by simp [askTry, hok, hget, hstr]⟩
          | ok t => exact Or.inl ⟨t, fun _ => by simp [askTry, hok, hget, hstr]⟩
      | true =>
        cases hline : rationaleLine br data with
        | error m => exact Or.inl ⟨m, fun _ => by simp [askTry, hok, hline]⟩
        | ok line =>
          cases hget : data.get br "answer" with
          | error m =>
            exact Or.inr (Or.inl ⟨line, m, fun _ => by simp [askTry, hok, hline, hget]⟩)
          | ok v =>
            cases hstr : v.toTextContent with
            | error m =>
              exact Or.inr (Or.inl ⟨line, m, fun _ => by
                simp [askTry, hok, hline, hget, hstr]⟩)
            | ok t =>
              exact Or.inr (Or.inr ⟨line, t, fun _ => by
                simp [askTry, hok, hline, hget, hstr]⟩)

/-- The Ask handler changes each of its five regions by a function of that region alone,
and nothing else. -/
theorem askHandler_shape (br : Browser) (value : String) (res : FetchResult Parsed) :
    ∃ f1 f2 f3 f4 f5 : String → String, ∀ ui : UI, (askHandler br value res ui).1 =
      { ui with loaderDisplay := f1 ui.loaderDisplay
                resultContentDisplay := f2 ui.resultContentDisplay
                rationaleBoxText := f3 ui.rationaleBoxText
                rationaleBoxDisplay := f4 ui.rationaleBoxDisplay
                answerBoxText := f5 ui.answerBoxText } := by
  by_cases hq : trim value = ""
  · exact ⟨id, id, id, id, id, fun ui => by
      simp [askHandler_of_trim_eq br value res ui hq]⟩
  · rcases askTry_shape br res with ⟨m, h⟩ | ⟨line, m, h⟩ | ⟨line, t, h⟩
    · exact ⟨fun _ => "none", fun _ => "block", id, fun _ => "none",
        fun _ => "An error occurred: " ++ m, fun ui => by
          simp [askHandler_of_trim_ne br value res ui hq, askSettle, h, askCatch, askFinally]⟩
    · exact ⟨fun _ => "none", fun _ => "block", fun _ => line, fun _ => "none",
        fun _ => "An error occurred: " ++ m, fun ui => by
          simp [askHandler_of_trim_ne br value res ui hq, askSettle, h, askCatch, askFinally]⟩
    · exact ⟨fun _ => "none", fun _ => "block", fun _ => line, fun _ => "block",
        fun _ => t, fun ui => by
          simp [askHandler_of_trim_ne br value res ui hq, askSettle, h, askFinally]⟩

/-- The Load Logs handler changes its three regions by functions of these regions alone,
and nothing else. -/
theorem logsHandler_shape (br : Browser) (res : FetchResult String) :
    ∃ (f1 f2 : String → String) (f3 : String → String → Nat → Nat), ∀ ui : UI,
      (logsHandler br res ui).1 =
        { ui with logsBoxText := f1 ui.logsBoxText
                  logsBoxDisplay := f2 ui.logsBoxDisplay
                  logsBoxScrollTop := f3 ui.logsBoxText ui.logsBoxDisplay ui.logsBoxScrollTop } := by
  cases res with
  | error m =>
    exact ⟨fun _ => "Failed to load logs.", id,
      fun _ d y => min y (br.maxScrollTop "Failed to load logs." d), fun _ => rfl⟩
  | ok response =>
    obtain ⟨status, body⟩ := response
    cases body with
    | error m =>
      exact ⟨fun _ => "Failed to load logs.", id,
        fun _ d y => min y (br.maxScrollTop "Failed to load logs." d), fun _ => rfl⟩
    | ok t =>
      exact ⟨fun _ => t, fun _ => "block",
        fun _ _ _ => min (br.scrollHeight t "block")
          (br.maxScrollTop t "block"), fun _ => by
            simp [logsHandler, logsTry, setLogsBoxScrollTop, setLogsBoxDisplay, setLogsBoxText]⟩

/-- C10. Region ownership. For every input and outcome, the Upload handler changes nothing
but the upload status text and colour, the Ask handler nothing but the loader display, the
result-region display, the rationale text and display and the answer text, and the Load Logs
handler nothing but the logs text, display and scroll position; these three sets of regions
are disjoint and cover the page state. Any two handlers of different flows commute on the
page state. -/
theorem region_ownership (br : Browser) (files : List File) (resU : FetchResult Parsed)
    (value : String) (resA : FetchResult Parsed) (resL : FetchResult String) (ui : UI) :
    ((uploadHandler br files resU ui).1 =
      { ui with
        uploadStatusText := (uploadHandler br files resU ui).1.uploadStatusText
        uploadStatusColor := (uploadHandler br files resU ui).1.uploadStatusColor }) ∧
    ((askHandler br value resA ui).1 =
      { ui with
        loaderDisplay := (askHandler br value resA ui).1.loaderDisplay
        resultContentDisplay := (askHandler br value resA ui).1.resultContentDisplay
        rationaleBoxText := (askHandler br value resA ui).1.rationaleBoxText
        rationaleBoxDisplay := (askHandler br value resA ui).1.rationaleBoxDisplay
        answerBoxText := (askHandler br value resA ui).1.answerBoxText }) ∧
    ((logsHandler br resL ui).1 =
      { ui with
        logsBoxText := (logsHandler br resL ui).1.logsBoxText
        logsBoxDisplay := (logsHandler br resL ui).1.logsBoxDisplay
        logsBoxScrollTop := (logsHandler br resL ui).1.logsBoxScrollTop }) ∧
    ((askHandler br value resA (uploadHandler br files resU ui).1).1 =
      (uploadHandler br files resU (askHandler br value resA ui).1).1) ∧
    ((logsHandler br resL (uploadHandler br files resU ui).1).1 =
      (uploadHandler br files resU (logsHandler br resL ui).1).1) ∧
    ((logsHandler br resL (askHandler br value resA ui).1).1 =
      (askHandler br value resA (logsHandler br resL ui).1).1) := by
  obtain ⟨t, c, hu⟩ := uploadHandler_shape br files resU
  obtain ⟨f1, f2, f3, f4, f5, ha⟩ := askHandler_shape br value resA
  obtain ⟨g1, g2, g3, hl⟩ := logsHandler_shape br resL
  refine ⟨?_, ?_, ?_, ?_, ?_, ?_⟩
  · rw [hu ui]
  · rw [ha ui]
  · rw [hl ui]
  · rw [hu ui, ha ui, ha, hu]
  · rw [hu ui, hl ui, hl, hu]
  · rw [ha ui, hl ui, hl, ha]

end MultiAgentSystem
